import Mathlib

/-!
Verification of the AquaCrop crop-calendar / soil-fertility-stress pipeline and
the rainfall partitioning algorithm, shallowly embedded from
`aquacrop/solution/rainfall_partition.py` and
`aquacrop/initialize/read_model_parameters.py`.  Machine floats are modelled by
rationals; the transcendental `np.exp` is an explicit function parameter, and
the constant `np.exp(-14 * np.log(10))` is an explicit rational parameter, so
every definition stays executable.
-/

namespace AquaCrop

/-- Round-half-to-even (the semantics of Python's and NumPy's `round` on the
curve-number values) for a rational number. -/
def roundHalfEven (x : ℚ) : ℤ :=
  if x - ⌊x⌋ < 1/2 then ⌊x⌋
  else if 1/2 < x - ⌊x⌋ then ⌊x⌋ + 1
  else if ⌊x⌋ % 2 = 0 then ⌊x⌋ else ⌊x⌋ + 1

/-- Retention parameter `S = (25400 / CN) - 254` (rainfall_partition.py, line 142). -/
def S_retention (CN : ℚ) : ℚ := 25400 / CN - 254

/-- `term = precipitation - ((5 / 100) * S)` (rainfall_partition.py, line 143). -/
def runoffTerm (p CN : ℚ) : ℚ := p - 5/100 * S_retention CN

/-- `Runoff = (term ** 2) / (precipitation + (1 - (5 / 100)) * S)`
(rainfall_partition.py, line 148). -/
def runoffAmount (p CN : ℚ) : ℚ :=
  runoffTerm p CN ^ 2 / (p + (1 - 5/100) * S_retention CN)

/-- Partition of rainfall into `(Runoff, Infl)` from the adjusted curve number
(rainfall_partition.py, lines 141-149). -/
def partitionRunoff (p CN : ℚ) : ℚ × ℚ :=
  if runoffTerm p CN ≤ 0 then (0, p)
  else (runoffAmount p CN, p - runoffAmount p CN)

/-- `if prof.dzsum[ii] > Soil_zCN: prof.dzsum[ii] = Soil_zCN`
(rainfall_partition.py, lines 111-112): the in-loop clamp of a cumulative
depth to the curve-number reference depth. -/
def clampZ (zCN d : ℚ) : ℚ := if zCN < d then zCN else d

/-- `wx = 1.016 * (1 - np.exp(-4.16 * (prof.dzsum[ii] / Soil_zCN)))`
(rainfall_partition.py, line 114), evaluated on the clamped depth; `expQ`
stands for `np.exp`. -/
def wxOf (expQ : ℚ → ℚ) (zCN d : ℚ) : ℚ :=
  1016/1000 * (1 - expQ (-(416/100) * (clampZ zCN d / zCN)))

/-- Clip of the weight increment `wrel[ii]` into `[0, 1]`
(rainfall_partition.py, lines 116-119). -/
def clip01 (w : ℚ) : ℚ := if w < 0 then 0 else if 1 < w then 1 else w

/-- The weighting loop of rainfall_partition.py, lines 108-121, over the first
`comp_sto` cumulative depths, carrying `xx` (previous `wx`).  Returns the
updated `dzsum` prefix (the in-place clamps) and the `wrel` weights. -/
def cnWeightLoop (expQ : ℚ → ℚ) (zCN : ℚ) : List ℚ → ℚ → List ℚ × List ℚ
  | [], _ => ([], [])
  | d :: rest, xx =>
      (clampZ zCN d :: (cnWeightLoop expQ zCN rest (wxOf expQ zCN d)).1,
       clip01 (wxOf expQ zCN d - xx) :: (cnWeightLoop expQ zCN rest (wxOf expQ zCN d)).2)

/-- Number of compartments used to adjust the curve number
(rainfall_partition.py, lines 101-105): `nComp` when no cumulative depth
reaches `Soil_zCN`, else `nComp` minus the number of depths `≥ Soil_zCN`. -/
def compSto (zCN : ℚ) (nComp : ℕ) (dzsum : List ℚ) : ℕ :=
  if (dzsum.filter (fun d => decide (zCN ≤ d))).length = 0 then nComp
  else nComp - (dzsum.filter (fun d => decide (zCN ≤ d))).length

/-- The relative-wetness accumulation of rainfall_partition.py, lines
124-131: `wet_top += wrel[ii] * ((max(th_wp[ii], th[ii]) - th_wp[ii]) /
(th_fc[ii] - th_wp[ii]))`, with `ii` the running index. -/
def wetTopGo (th_wp th th_fc : List ℚ) : List ℚ → ℕ → ℚ
  | [], _ => 0
  | w :: ws, i =>
      w * ((max (th_wp.getD i 0) (th.getD i 0) - th_wp.getD i 0) /
        (th_fc.getD i 0 - th_wp.getD i 0)) + wetTopGo th_wp th th_fc ws (i + 1)

/-- Antecedent-moisture adjustment of the curve number
(rainfall_partition.py, lines 85-139).  `c0` stands for the constant
`np.exp(-14 * np.log(10))`.  Returns the adjusted curve number and the
(possibly clamped) cumulative-depth array. -/
def cnAdjustMoisture (expQ : ℚ → ℚ) (c0 CN zCN : ℚ) (nComp : ℕ)
    (dzsum th_wp th th_fc : List ℚ) : ℚ × List ℚ :=
  let CNbot := roundHalfEven
    (14/10 * c0 + 507/1000 * CN - 374/100000 * CN ^ 2 + 867/10000000 * CN ^ 3)
  let CNtop := roundHalfEven
    (56/10 * c0 + 233/100 * CN - 209/10000 * CN ^ 2 + 76/1000000 * CN ^ 3)
  let cs := compSto zCN nComp dzsum
  let pair := cnWeightLoop expQ zCN (dzsum.take cs) 0
  let wt0 := wetTopGo th_wp th th_fc pair.2 0
  let wet_top := if 1 < wt0 then 1 else if wt0 < 0 then 0 else wt0
  (((roundHalfEven ((CNbot : ℚ) + ((CNtop : ℚ) - (CNbot : ℚ)) * wet_top) : ℤ) : ℚ),
   pair.1 ++ dzsum.drop cs)

/-- The adjusted curve number together with the updated `dzsum`
(rainfall_partition.py, lines 84-139): the field-management percentage
adjustment `CN = Soil_CN * (1 + CNadjPct / 100)`, then the optional
antecedent-moisture adjustment when `Soil_AdjCN == 1`. -/
def adjustedCNdz (expQ : ℚ → ℚ) (c0 CNadjPct Soil_CN : ℚ) (Soil_AdjCN : ℤ)
    (zCN : ℚ) (nComp : ℕ) (dzsum th_wp th th_fc : List ℚ) : ℚ × List ℚ :=
  if Soil_AdjCN = 1 then
    cnAdjustMoisture expQ c0 (Soil_CN * (1 + CNadjPct / 100)) zCN nComp dzsum th_wp th th_fc
  else (Soil_CN * (1 + CNadjPct / 100), dzsum)

/-- Result of `rainfall_partition`: the returned `(Runoff, Infl,
NewCond_DaySubmerged)` triple plus the soil profile's cumulative-depth array
after the call (the function mutates `prof.dzsum` in place). -/
structure RainfallResult where
  Runoff : ℚ
  Infl : ℚ
  DaySubmerged : ℤ
  dzsum : List ℚ
deriving DecidableEq

/-- `rainfall_partition` (rainfall_partition.py, lines 16-156).  The f8
field-management flags `FieldMngt_SRinhb` and `FieldMngt_Bunds` are modelled
as Booleans (the source compares them with `== False`); `expQ` stands for
`np.exp` and `c0` for `np.exp(-14 * np.log(10))`. -/
def rainfall_partition (expQ : ℚ → ℚ) (c0 precipitation : ℚ)
    (InitCond_th : List ℚ) (NewCond_DaySubmerged : ℤ)
    (FieldMngt_SRinhb FieldMngt_Bunds : Bool)
    (FieldMngt_zBund FieldMngt_CNadjPct Soil_CN : ℚ) (Soil_AdjCN : ℤ)
    (Soil_zCN : ℚ) (Soil_nComp : ℕ) (dzsum th_wp th_fc : List ℚ) :
    RainfallResult :=
  if FieldMngt_SRinhb = false ∧ (FieldMngt_Bunds = false ∨ FieldMngt_zBund < 1/1000) then
    let res := adjustedCNdz expQ c0 FieldMngt_CNadjPct Soil_CN Soil_AdjCN
      Soil_zCN Soil_nComp dzsum th_wp InitCond_th th_fc
    ⟨(partitionRunoff precipitation res.1).1, (partitionRunoff precipitation res.1).2,
      0, res.2⟩
  else
    ⟨0, precipitation, NewCond_DaySubmerged, dzsum⟩

/-- Core algebra of the curve-number partition: for `0 < CN ≤ 100` and
`0 ≤ p`, the retention `S` is nonnegative (positive when `CN < 100`), runoff
never exceeds the precipitation, and runoff plus infiltration equals the
precipitation exactly. -/
theorem partitionRunoff_spec (p CN : ℚ) (hp : 0 ≤ p) (h0 : 0 < CN) (h100 : CN ≤ 100) :
    0 ≤ S_retention CN ∧ (CN < 100 → 0 < S_retention CN) ∧
    (partitionRunoff p CN).1 ≤ p ∧
    (partitionRunoff p CN).1 + (partitionRunoff p CN).2 = p := by
  have hCNne : CN ≠ 0 := ne_of_gt h0
  have hSrw : S_retention CN = (25400 - 254 * CN) / CN := by
    unfold S_retention
    field_simp
    ring
  have hSnn : 0 ≤ S_retention CN := by
    rw [hSrw]
    apply div_nonneg _ h0.le
    linarith
  refine ⟨hSnn, ?_, ?_, ?_⟩
  · intro hlt
    rw [hSrw]
    apply div_pos _ h0
    linarith
  · unfold partitionRunoff
    split
    · simpa using hp
    · rename_i hterm
      push_neg at hterm
      have hterm' : 5/100 * S_retention CN < p := by
        unfold runoffTerm at hterm
        linarith
      have hden : 0 < p + (1 - 5/100) * S_retention CN := by nlinarith
      simp only
      unfold runoffAmount
      rw [div_le_iff₀ hden]
      unfold runoffTerm
      nlinarith [mul_nonneg hSnn
        (by linarith : (0:ℚ) ≤ 105/100 * p - 25/10000 * S_retention CN)]
  · unfold partitionRunoff
    split
    · simp
    · simp only
      ring

/-- C1 (amended): for every precipitation `≥ 0` and every adjusted curve
number `CN ∈ (0, 100]`, when runoff is not inhibited and no bunds with height
`≥ 0.001` are active, `rainfall_partition` has `S = 25400/CN - 254`
nonnegative — strictly positive whenever `CN < 100`, while at `CN = 100` the
retention is exactly `0` — `Runoff ≤ precipitation`, and
`Runoff + Infl = precipitation` exactly, in both the `term ≤ 0` branch and
the `term > 0` branch. -/
theorem rainfall_partition_conservation (expQ : ℚ → ℚ)
    (c0 p : ℚ) (th : List ℚ) (ds : ℤ) (srinhb bunds : Bool)
    (zbund pct cn : ℚ) (adj : ℤ) (zcn : ℚ) (ncomp : ℕ)
    (dz wp fc : List ℚ) (CN : ℚ)
    (hCN : (adjustedCNdz expQ c0 pct cn adj zcn ncomp dz wp th fc).1 = CN)
    (hsr : srinhb = false) (hb : bunds = false ∨ zbund < 1/1000)
    (h0 : 0 < CN) (h100 : CN ≤ 100) (hp : 0 ≤ p) :
    0 ≤ S_retention CN ∧ (CN < 100 → 0 < S_retention CN) ∧
    (rainfall_partition expQ c0 p th ds srinhb bunds zbund pct cn adj zcn
      ncomp dz wp fc).Runoff ≤ p ∧
    (rainfall_partition expQ c0 p th ds srinhb bunds zbund pct cn adj zcn
      ncomp dz wp fc).Runoff +
    (rainfall_partition expQ c0 p th ds srinhb bunds zbund pct cn adj zcn
      ncomp dz wp fc).Infl = p := by
  obtain ⟨h1, h2, h3, h4⟩ := partitionRunoff_spec p CN hp h0 h100
  have hmain : srinhb = false ∧ (bunds = false ∨ zbund < 1/1000) := ⟨hsr, hb⟩
  refine ⟨h1, h2, ?_, ?_⟩ <;>
    simp only [rainfall_partition, if_pos hmain, hCN] <;>
    [exact h3; exact h4]

/-- Witness for C1: precipitation 20, `Soil_CN = 75`, no percentage or
moisture adjustment (the worked example of the specification). -/
theorem rainfall_partition_conservation_witness :
    0 ≤ S_retention 75 ∧ ((75:ℚ) < 100 → 0 < S_retention 75) ∧
    (rainfall_partition (fun _ => 0) 0 20 [] 5 false false 0 0 75 0 0 0
      [] [] []).Runoff ≤ 20 ∧
    (rainfall_partition (fun _ => 0) 0 20 [] 5 false false 0 0 75 0 0 0
      [] [] []).Runoff +
    (rainfall_partition (fun _ => 0) 0 20 [] 5 false false 0 0 75 0 0 0
      [] [] []).Infl = 20 :=
  rainfall_partition_conservation (fun _ => 0) 0 20 [] 5 false false 0 0 75 0 0
    0 [] [] [] 75 (by norm_num [adjustedCNdz]) rfl (Or.inl rfl)
    (by norm_num) (by norm_num) (by norm_num)

/-- Counterexample to C1 as stated: `CN = 100` lies in `(0, 100]` and is
reached as the adjusted curve number (for example `Soil_CN = 100` with no
adjustments), yet the retention `S = 25400/100 - 254` is `0`, not positive. -/
theorem retention_zero_at_CN100 :
    (0:ℚ) < 100 ∧ (100:ℚ) ≤ 100 ∧
    (adjustedCNdz (fun _ => 0) 0 0 100 0 0 0 [] [] [] []).1 = 100 ∧
    S_retention 100 = 0 := by
  refine ⟨by norm_num, le_refl _, by norm_num [adjustedCNdz], by norm_num [S_retention]⟩

/-- C2: the code has no guard on a non-positive adjusted curve number.  With
`Soil_CN = 50` and `FieldMngt_CNadjPct = -200` the adjusted curve number is
`-50 ≤ 0`; instead of raising a `DomainError`, `rainfall_partition` performs
the division, obtaining `S = -762` and a negative runoff with an infiltration
that exceeds the precipitation. -/
theorem rainfall_partition_no_domain_guard :
    (adjustedCNdz (fun _ => 0) 0 (-200) 50 0 0 0 [] [] [] []).1 = -50 ∧
    S_retention (-50) = -762 ∧
    (rainfall_partition (fun _ => 0) 0 10 [] 5 false false 0 (-200) 50 0 0 0
      [] [] []).Runoff < 0 ∧
    10 < (rainfall_partition (fun _ => 0) 0 10 [] 5 false false 0 (-200) 50 0 0 0
      [] [] []).Infl := by
  refine ⟨by norm_num [adjustedCNdz], by norm_num [S_retention], ?_, ?_⟩ <;>
    norm_num [rainfall_partition, adjustedCNdz, partitionRunoff, runoffTerm,
      runoffAmount, S_retention]

/-- One pass of the inner `for` loop of read_model_parameters.py, lines 58-62:
scan the compartments from the bottom upward and add `0.1` to the first one
whose depth increment is `< 0.25`; if none is eligible the pass changes
nothing.  `bumpFirstLt` works on the reversed list. -/
def bumpFirstLt : List ℚ → List ℚ
  | [] => []
  | d :: rest => if d < 1/4 then (d + 1/10) :: rest else d :: bumpFirstLt rest

/-- One iteration of the `while` body of read_model_parameters.py, lines
57-62, on the depth-increment column (deepest compartment last). -/
def growStep (dz : List ℚ) : List ℚ := (bumpFirstLt dz.reverse).reverse

/-- The soil-depth-growth loop `while soil.zSoil < crop.Zmax + 0.1`
(read_model_parameters.py, lines 57-62), with the total column depth
`zSoil = sum dz`, indexed by fuel: `none` means the loop is still running
after `fuel` iterations (the source has no iteration cap and no error). -/
def ensure_min_depth : ℕ → List ℚ → ℚ → Option (List ℚ)
  | 0, _, _ => none
  | fuel + 1, dz, zmax =>
      if dz.sum < zmax + 1/10 then ensure_min_depth fuel (growStep dz) zmax
      else some dz

/-- C3: the soil-depth-growth loop does not terminate on a column whose
compartments are all ineligible (`dz ≥ 0.25`) while the total depth is still
below `Zmax + 0.1`: with a single compartment of depth `0.3` and `Zmax = 1`,
the loop body is the identity and the `while` condition stays true, so no
amount of fuel finishes the loop — the code raises no `ConfigurationError`
and loops forever. -/
theorem soil_depth_loop_diverges :
    ∀ fuel : ℕ, ensure_min_depth fuel [(3:ℚ)/10] 1 = none := by
  intro fuel
  induction fuel with
  | zero => rfl
  | succ n ih =>
      have hstep : growStep [(3:ℚ)/10] = [(3:ℚ)/10] := by
        norm_num [growStep, bumpFirstLt]
      rw [ensure_min_depth, if_pos (by norm_num)]
      rw [hstep]
      exact ih

/-- A calendar date, ordered as pandas timestamps are: lexicographically by
year, month, day. -/
structure Date where
  year : ℤ
  month : ℕ
  day : ℕ
deriving DecidableEq

/-- Strict month/day comparison (comparison of two `pd.to_datetime` values
that share the mock year 1990). -/
def mdLtB (m1 d1 m2 d2 : ℕ) : Bool := m1 < m2 || (m1 = m2 && d1 < d2)

/-- Non-strict month/day comparison under the mock year 1990. -/
def mdLeB (m1 d1 m2 d2 : ℕ) : Bool := m1 < m2 || (m1 = m2 && d1 ≤ d2)

/-- Strict comparison of two dates (pandas timestamp order). -/
def dateLtB (a b : Date) : Bool :=
  a.year < b.year || (a.year = b.year && mdLtB a.month a.day b.month b.day)

/-- Python's `list(range(a, b))` on integers. -/
def rangeInt (a b : ℤ) : List ℤ := (List.range (b - a).toNat).map (fun i : ℕ => a + (i : ℤ))

/-- The single-year branch of the season scheduler
(read_model_parameters.py, lines 258-271): the last simulated year is
dropped when the mock end date `1990/end_month/end_day` is `≤` the mock
planting date `1990/planting_date`; then
`plant_years = harvest_years = [start_year .. last_year]`. -/
def singleYearYears (y0 y1 : ℤ) (pm pdy em ed : ℕ) : List ℤ × List ℤ :=
  let y1' := if mdLeB em ed pm pdy then y1 - 1 else y1
  (rangeInt y0 (y1' + 1), rangeInt y0 (y1' + 1))

/-- The planting/harvest year lists before the partial-first-season
correction (read_model_parameters.py, lines 252-287). -/
def schedulerPre (simStart simEnd : Date) (pm pdy hm hd : ℕ) : List ℤ × List ℤ :=
  let y0 := simStart.year
  let y1 := simEnd.year
  if mdLtB pm pdy hm hd then singleYearYears y0 y1 pm pdy simEnd.month simEnd.day
  else if dateLtB ⟨y1 + 2, hm, hd⟩ simEnd then
    (rangeInt y0 (y1 + 1), rangeInt (y0 + 1) (y1 + 2))
  else (rangeInt y0 y1, rangeInt (y0 + 1) (y1 + 1))

/-- The full year scheduler (read_model_parameters.py, lines 252-300):
after `schedulerPre`, when the first planting date precedes the simulation
start date the first element of both lists is dropped.  `none` models the
`IndexError` the source raises on `plant_years[0]` when the list is empty. -/
def scheduler (simStart simEnd : Date) (pm pdy hm hd : ℕ) :
    Option (List ℤ × List ℤ) :=
  match schedulerPre simStart simEnd pm pdy hm hd with
  | ([], _) => none
  | (p0 :: rest, hys) =>
      if dateLtB ⟨p0, pm, pdy⟩ simStart then some (rest, hys.drop 1)
      else some (p0 :: rest, hys)

/-- The two lists produced by `schedulerPre` always have the same length
(the invariant asserted at read_model_parameters.py, line 300). -/
theorem schedulerPre_length (simStart simEnd : Date) (pm pdy hm hd : ℕ) :
    (schedulerPre simStart simEnd pm pdy hm hd).1.length =
    (schedulerPre simStart simEnd pm pdy hm hd).2.length := by
  unfold schedulerPre singleYearYears rangeInt
  dsimp only
  split
  · simp
  · split <;> (simp; try omega)

/-- C8 (amended): for a single-year crop (planting month/day precedes harvest
month/day), `plant_years = [start_year .. end_year]` with
`harvest_years = plant_years`, except that the last simulated year is dropped
exactly when the end date's month/day falls on or *at* the planting month/day
(the source compares with `<=`, so a simulation ending exactly on the
planting date also drops the year). -/
theorem single_year_schedule (simStart simEnd : Date) (pm pdy hm hd : ℕ)
    (hsingle : mdLtB pm pdy hm hd = true) :
    (schedulerPre simStart simEnd pm pdy hm hd).2 =
      (schedulerPre simStart simEnd pm pdy hm hd).1 ∧
    (mdLeB simEnd.month simEnd.day pm pdy = true →
      (schedulerPre simStart simEnd pm pdy hm hd).1 =
        rangeInt simStart.year simEnd.year) ∧
    (mdLeB simEnd.month simEnd.day pm pdy = false →
      (schedulerPre simStart simEnd pm pdy hm hd).1 =
        rangeInt simStart.year (simEnd.year + 1)) := by
  refine ⟨?_, ?_, ?_⟩
  · simp [schedulerPre, singleYearYears, hsingle]
  · intro hle
    simp [schedulerPre, singleYearYears, hsingle, hle, Int.sub_add_cancel]
  · intro hle
    simp [schedulerPre, singleYearYears, hsingle, hle]

/-- Witness for C8: planting 3/1, harvest 8/1, simulation 2000/1/1 to
2002/12/31; the end date 12/31 does not fall on or before 3/1, so all three
years are kept. -/
theorem single_year_schedule_witness :
    (schedulerPre ⟨2000, 1, 1⟩ ⟨2002, 12, 31⟩ 3 1 8 1).2 =
      (schedulerPre ⟨2000, 1, 1⟩ ⟨2002, 12, 31⟩ 3 1 8 1).1 ∧
    (mdLeB (Date.mk 2002 12 31).month (Date.mk 2002 12 31).day 3 1 = true →
      (schedulerPre ⟨2000, 1, 1⟩ ⟨2002, 12, 31⟩ 3 1 8 1).1 =
        rangeInt (Date.mk 2000 1 1).year (Date.mk 2002 12 31).year) ∧
    (mdLeB (Date.mk 2002 12 31).month (Date.mk 2002 12 31).day 3 1 = false →
      (schedulerPre ⟨2000, 1, 1⟩ ⟨2002, 12, 31⟩ 3 1 8 1).1 =
        rangeInt (Date.mk 2000 1 1).year ((Date.mk 2002 12 31).year + 1)) :=
  single_year_schedule ⟨2000, 1, 1⟩ ⟨2002, 12, 31⟩ 3 1 8 1 (by decide)

/-- Counterexample to C8 as stated: planting 3/1, harvest 8/1, simulation
2000/1/1 to 2002/3/1.  The end date (3/1) does not fall *before* the planting
date (3/1) — they coincide — yet the source drops the year 2002: the computed
plant years are `[2000, 2001]`, not `[2000, 2001, 2002]`. -/
theorem single_year_drop_at_equality :
    mdLtB 3 1 3 1 = false ∧
    (schedulerPre ⟨2000, 1, 1⟩ ⟨2002, 3, 1⟩ 3 1 8 1).1 = [2000, 2001] ∧
    rangeInt 2000 2003 = [2000, 2001, 2002] := by
  refine ⟨rfl, by decide, by decide⟩

/-- C9: whenever the first computed planting date precedes the simulation
start date, the scheduler drops the first element of both year lists (the
partial first season is excluded), and the lists keep equal length. -/
theorem partial_first_season_drop (simStart simEnd : Date) (pm pdy hm hd : ℕ)
    (p0 : ℤ) (rest hys : List ℤ)
    (hpre : schedulerPre simStart simEnd pm pdy hm hd = (p0 :: rest, hys))
    (hfirst : dateLtB ⟨p0, pm, pdy⟩ simStart = true) :
    scheduler simStart simEnd pm pdy hm hd = some (rest, hys.drop 1) ∧
    rest.length = (hys.drop 1).length := by
  have hlen := schedulerPre_length simStart simEnd pm pdy hm hd
  rw [hpre] at hlen
  constructor
  · unfold scheduler
    rw [hpre]
    simp [hfirst]
  · simp only [List.length_cons, List.length_drop] at hlen ⊢
    omega

/-- Witness for C9: planting 3/1, harvest 8/1, simulation 2000/6/1 to
2002/12/31; the 2000 planting date 2000/3/1 precedes the start 2000/6/1, so
the first season is dropped from both lists. -/
theorem partial_first_season_drop_witness :
    scheduler ⟨2000, 6, 1⟩ ⟨2002, 12, 31⟩ 3 1 8 1 =
      some ([2001, 2002], ([2000, 2001, 2002] : List ℤ).drop 1) ∧
    ([2001, 2002] : List ℤ).length =
      (([2000, 2001, 2002] : List ℤ).drop 1).length :=
  partial_first_season_drop ⟨2000, 6, 1⟩ ⟨2002, 12, 31⟩ 3 1 8 1 2000
    [2001, 2002] [2000, 2001, 2002] (by decide) (by decide)

/-- Running state of `np.argmin`: `i` is the index of the next element,
`bi`/`bv` the index and value of the best (smallest, earliest) element so
far.  A later element replaces the best only when strictly smaller, so ties
are broken by the lowest index. -/
def argminAux : List ℚ → ℕ → ℕ → ℚ → ℕ
  | [], _, bi, _ => bi
  | x :: xs, i, bi, bv =>
      if x < bv then argminAux xs (i + 1) i x else argminAux xs (i + 1) bi bv

/-- `np.argmin` on a list of rationals: the first index attaining the
minimum (read_model_parameters.py, line 178). -/
def argmin : List ℚ → ℕ
  | [] => 0
  | x :: xs => argminAux xs 1 0 x

/-- The crop record fields touched by the in-scope part of
`read_model_parameters`: the target soil-fertility stress, the
stress-response curve (parallel `_es` arrays, produced by the out-of-scope
calibration-table generator), the four calibrated coefficients, the
planting/harvest month-day pairs (the source keeps them as "m/d" strings)
and the maturity duration in calendar days. -/
structure Crop where
  sfertstress : ℚ
  sf_es : List ℚ
  Ksexpf_es : List ℚ
  fcdecline_es : List ℚ
  Kswp_es : List ℚ
  Ksccx_es : List ℚ
  relbio_es : List ℚ
  Ksccx : ℚ
  Ksexpf : ℚ
  Kswp : ℚ
  fcdecline : ℚ
  planting_month : ℕ
  planting_day : ℕ
  harvest_month : ℕ
  harvest_day : ℕ
  MaturityCD : ℕ
deriving DecidableEq

/-- The error taxonomy of the specification for the pipeline's raises; the
source raises `ValueError` with the corresponding messages
(read_model_parameters.py, lines 173 and 246). -/
inductive PipeError where
  | configurationError : PipeError
  | unsupportedModeError : PipeError
deriving DecidableEq

/-- `np.abs` on a rational, kept executable. -/
def absQ (x : ℚ) : ℚ := if x < 0 then -x else x

/-- `absQ` agrees with the lattice absolute value. -/
theorem absQ_eq_abs (x : ℚ) : absQ x = |x| := by
  unfold absQ
  split
  · rename_i h
    exact (abs_of_neg h).symm
  · rename_i h
    exact (abs_of_nonneg (not_lt.mp h)).symm

/-- The soil-fertility-stress calibrator segment of
read_model_parameters.py, lines 162-202: raise when the target stress is
zero, otherwise select `loc_ = np.argmin(np.abs(sf_es[0:100] - stress))` and
read the four coefficients at that index (the `_es` arrays, including
`relbio_es`, are stored back unchanged).  The pair returned is the raised
error (if any) together with the crop state observable after the call. -/
def soilFertCalibrator (c : Crop) : Option PipeError × Crop :=
  if c.sfertstress = 0 then (some PipeError.configurationError, c)
  else
    let loc := argmin ((c.sf_es.take 100).map (fun v => absQ (v - c.sfertstress)))
    (none,
     { c with
        Ksccx := c.Ksccx_es.getD loc 0
        Ksexpf := c.Ksexpf_es.getD loc 0
        Kswp := c.Kswp_es.getD loc 0
        fcdecline := c.fcdecline_es.getD loc 0 })

/-- Gregorian leap-year test. -/
def isLeapYear (y : ℤ) : Bool := (y % 4 = 0 && ¬ y % 100 = 0) || y % 400 = 0

/-- Number of days in month `m` (1-based). -/
def daysInMonth (leap : Bool) (m : ℕ) : ℕ :=
  if m = 2 then (if leap then 29 else 28)
  else if m = 4 ∨ m = 6 ∨ m = 9 ∨ m = 11 then 30
  else 31

/-- Day-of-year (1-based) of a month/day pair. -/
def doyOfMonthDay (leap : Bool) (m d : ℕ) : ℕ :=
  ((List.range (m - 1)).map (fun i => daysInMonth leap (i + 1))).sum + d

/-- Convert a day-of-year back to a month/day pair, walking the months
(fuel 12 suffices). -/
def mdFromAux (leap : Bool) : ℕ → ℕ → ℕ → ℕ × ℕ
  | 0, m, rem => (m, rem)
  | fuel + 1, m, rem =>
      if rem ≤ daysInMonth leap m then (m, rem)
      else mdFromAux leap fuel (m + 1) (rem - daysInMonth leap m)

/-- Roll a day offset `t` (1-based, counted from the start of year `y`) over
whole years until it lands inside one. -/
def rollYears : ℕ → ℤ → ℕ → ℤ × ℕ
  | 0, y, t => (y, t)
  | fuel + 1, y, t =>
      if t ≤ (if isLeapYear y then 366 else 365) then (y, t)
      else rollYears fuel (y + 1) (t - (if isLeapYear y then 366 else 365))

/-- Harvest-date update of read_model_parameters.py, lines 235-239:
`harv = pd.to_datetime("1990/" + planting_date) + (MaturityCD + 30) days`,
stored back in month/day form. -/
def harvestUpdate (c : Crop) : Crop :=
  let mature := c.MaturityCD + 30
  let pdoy := doyOfMonthDay false c.planting_month c.planting_day
  let yd := rollYears (mature + 1) 1990 (pdoy + mature)
  let md := mdFromAux (isLeapYear yd.1) 12 1 yd.2
  { c with harvest_month := md.1, harvest_day := md.2 }

/-- The calendar-mode dispatch of read_model_parameters.py, lines 137-246:
in GDD mode (`Mode == 2`) with calibration requested (`need_calib == 1`) the
calibrator runs and, on success, the harvest date is recomputed; in GDD mode
without calibration only the harvest date is recomputed; calendar-days mode
(`Mode == 1`) raises unconditionally.  The out-of-scope collaborators
`compute_crop_calendar` and `calibrate_soil_fert_stress` (external
calendar/curve generators per the specification) are taken as already
applied to the input crop.  The pair returned is the raised error (if any)
together with the crop state observable after the call. -/
def stressPipeline (mode need_calib : ℤ) (c : Crop) : Option PipeError × Crop :=
  if mode = 2 then
    if need_calib = 1 then
      match soilFertCalibrator c with
      | (some e, c1) => (some e, c1)
      | (none, c1) => (none, harvestUpdate c1)
    else (none, harvestUpdate c)
  else if mode = 1 then (some PipeError.unsupportedModeError, c)
  else (none, c)

/-- C4: in GDD mode with calibration requested, a zero target
soil-fertility stress makes the pipeline raise (the `ValueError` of line 173,
the specification's `ConfigurationError`) before any crop field is assigned:
the crop record is returned exactly as it came in. -/
theorem zero_stress_raises_unmutated (c : Crop) (h : c.sfertstress = 0) :
    stressPipeline 2 1 c = (some PipeError.configurationError, c) := by
  simp [stressPipeline, soilFertCalibrator, h]

/-- A concrete crop with zero target stress and nontrivial curve arrays. -/
def cropZeroStress : Crop :=
  { sfertstress := 0
    sf_es := [1/10, 2/10, 3/10]
    Ksexpf_es := [1, 2, 3]
    fcdecline_es := [4, 5, 6]
    Kswp_es := [7, 8, 9]
    Ksccx_es := [10, 11, 12]
    relbio_es := [13, 14, 15]
    Ksccx := 0
    Ksexpf := 0
    Kswp := 0
    fcdecline := 0
    planting_month := 3
    planting_day := 1
    harvest_month := 8
    harvest_day := 1
    MaturityCD := 100 }

/-- Witness for C4 at a concrete crop record. -/
theorem zero_stress_raises_unmutated_witness :
    stressPipeline 2 1 cropZeroStress =
      (some PipeError.configurationError, cropZeroStress) :=
  zero_stress_raises_unmutated cropZeroStress rfl

/-- C5: in calendar-days mode (`Mode == 1`) with soil-fertility-stress
calibration requested, the pipeline raises (the `ValueError` of line 246,
the specification's `UnsupportedModeError`); the calibrator only ever runs
in the GDD branch (`Mode == 2`). -/
theorem calendar_days_mode_unsupported (c : Crop) :
    stressPipeline 1 1 c = (some PipeError.unsupportedModeError, c) := by
  simp [stressPipeline]

/-- Invariant of the `argmin` scan: the result is either the incoming best
index (when nothing beats the incoming best value) or `i + off` for the
first offset `off` attaining the strict minimum of the scanned suffix. -/
theorem argminAux_spec (xs : List ℚ) : ∀ (i bi : ℕ) (bv : ℚ),
    (argminAux xs i bi bv = bi ∧ ∀ k, k < xs.length → bv ≤ xs.getD k 0) ∨
    (∃ off, off < xs.length ∧ argminAux xs i bi bv = i + off ∧
      xs.getD off 0 < bv ∧
      (∀ k, k < xs.length → xs.getD off 0 ≤ xs.getD k 0) ∧
      (∀ k, k < off → xs.getD off 0 < xs.getD k 0)) := by
  induction xs with
  | nil =>
      intro i bi bv
      left
      exact ⟨rfl, by simp⟩
  | cons x xs ih =>
      intro i bi bv
      by_cases hx : x < bv
      · rw [argminAux, if_pos hx]
        rcases ih (i + 1) i x with ⟨heq, hmin⟩ | ⟨off, hoff, heq, hlt, hmin, hfirst⟩
        · right
          refine ⟨0, by simp, by simpa using heq, by simpa using hx, ?_, by simp⟩
          intro k hk
          cases k with
          | zero => simp
          | succ m => simpa using hmin m (by simpa using hk)
        · right
          refine ⟨off + 1, by simpa using hoff, ?_, ?_, ?_, ?_⟩
          · rw [heq]
            omega
          · simpa using lt_trans hlt hx
          · intro k hk
            cases k with
            | zero => simpa using le_of_lt hlt
            | succ m => simpa using hmin m (by simpa using hk)
          · intro k hk
            cases k with
            | zero => simpa using hlt
            | succ m => simpa using hfirst m (by omega)
      · rw [argminAux, if_neg hx]
        push_neg at hx
        rcases ih (i + 1) bi bv with ⟨heq, hmin⟩ | ⟨off, hoff, heq, hlt, hmin, hfirst⟩
        · left
          refine ⟨heq, ?_⟩
          intro k hk
          cases k with
          | zero => simpa using hx
          | succ m => simpa using hmin m (by simpa using hk)
        · right
          refine ⟨off + 1, by simpa using hoff, ?_, ?_, ?_, ?_⟩
          · rw [heq]
            omega
          · simpa using hlt
          · intro k hk
            cases k with
            | zero => simpa using le_of_lt (lt_of_lt_of_le hlt hx)
            | succ m => simpa using hmin m (by simpa using hk)
          · intro k hk
            cases k with
            | zero => simpa using lt_of_lt_of_le hlt hx
            | succ m => simpa using hfirst m (by omega)

/-- `np.argmin` semantics: on a nonempty list the result is in range, its
value is a minimum, and every earlier element is strictly larger (ties are
broken by the lowest index). -/
theorem argmin_spec (l : List ℚ) (hne : l ≠ []) :
    argmin l < l.length ∧
    (∀ k, k < l.length → l.getD (argmin l) 0 ≤ l.getD k 0) ∧
    (∀ k, k < argmin l → l.getD (argmin l) 0 < l.getD k 0) := by
  cases l with
  | nil => exact absurd rfl hne
  | cons x xs =>
      rw [argmin]
      rcases argminAux_spec xs 1 0 x with ⟨heq, hmin⟩ | ⟨off, hoff, heq, hlt, hmin, hfirst⟩
      · rw [heq]
        refine ⟨by simp, ?_, by simp⟩
        intro k hk
        cases k with
        | zero => simp
        | succ m => simpa using hmin m (by simpa using hk)
      · have h1 : 1 + off = off + 1 := by omega
        rw [heq, h1]
        refine ⟨by simpa using hoff, ?_, ?_⟩
        · intro k hk
          cases k with
          | zero => simpa using le_of_lt hlt
          | succ m => simpa using hmin m (by simpa using hk)
        · intro k hk
          cases k with
          | zero => simpa using hlt
          | succ m => simpa using hfirst m (by omega)

/-- C7 (amended): the calibrator selects, among the first 100 rows of the
stress-response curve, the index with minimum absolute difference between
stress fraction and the target stress, ties broken by lowest index; for a
curve strictly increasing over those rows and a target equal to row `k`'s
stress fraction it selects exactly `k`, and it reads the four coefficients
(`Ksccx`, `Ksexpf`, `Kswp`, `fcdecline`) at that index — the
relative-biomass array is stored back unchanged, not read at that index. -/
theorem calibrator_selects_index (c : Crop) (k : ℕ)
    (hne : c.sfertstress ≠ 0)
    (hk : k < 100) (hlen : 100 ≤ c.sf_es.length)
    (hmono : ∀ j, j < 100 → ∀ i, i < j →
      c.sf_es.getD i 0 < c.sf_es.getD j 0)
    (htar : c.sfertstress = c.sf_es.getD k 0) :
    argmin ((c.sf_es.take 100).map (fun v => absQ (v - c.sfertstress))) = k ∧
    (∀ i, i < 100 →
      absQ (c.sf_es.getD k 0 - c.sfertstress) ≤ absQ (c.sf_es.getD i 0 - c.sfertstress)) ∧
    soilFertCalibrator c =
      (none, { c with
        Ksccx := c.Ksccx_es.getD k 0
        Ksexpf := c.Ksexpf_es.getD k 0
        Kswp := c.Kswp_es.getD k 0
        fcdecline := c.fcdecline_es.getD k 0 }) ∧
    (soilFertCalibrator c).2.relbio_es = c.relbio_es := by
  have hDlen : ((c.sf_es.take 100).map (fun v => absQ (v - c.sfertstress))).length = 100 := by
    simp [List.length_take]
    omega
  have hDget : ∀ i, i < 100 →
      ((c.sf_es.take 100).map (fun v => absQ (v - c.sfertstress))).getD i 0 =
        absQ (c.sf_es.getD i 0 - c.sfertstress) := by
    intro i hi
    have hi' : i < ((c.sf_es.take 100).map (fun v => absQ (v - c.sfertstress))).length := by
      rw [hDlen]; exact hi
    have hisf : i < c.sf_es.length := lt_of_lt_of_le hi hlen
    rw [List.getD_eq_getElem _ _ hi', List.getD_eq_getElem _ _ hisf]
    simp [List.getElem_take]
  obtain ⟨hjlt, hjmin, hjfirst⟩ :=
    argmin_spec ((c.sf_es.take 100).map (fun v => absQ (v - c.sfertstress)))
      (by intro h; rw [h] at hDlen; simp at hDlen)
  rw [hDlen] at hjlt hjmin
  have hDk : ((c.sf_es.take 100).map (fun v => absQ (v - c.sfertstress))).getD k 0 = 0 := by
    rw [hDget k hk, ← htar]
    simp [absQ]
  have hj0 : ((c.sf_es.take 100).map (fun v => absQ (v - c.sfertstress))).getD
      (argmin ((c.sf_es.take 100).map (fun v => absQ (v - c.sfertstress)))) 0 = 0 := by
    have hle := hjmin k hk
    rw [hDk] at hle
    have hge : 0 ≤ ((c.sf_es.take 100).map (fun v => absQ (v - c.sfertstress))).getD
        (argmin ((c.sf_es.take 100).map (fun v => absQ (v - c.sfertstress)))) 0 := by
      rw [hDget _ hjlt, absQ_eq_abs]
      exact abs_nonneg _
    linarith
  have hsfeq : c.sf_es.getD
      (argmin ((c.sf_es.take 100).map (fun v => absQ (v - c.sfertstress)))) 0 =
      c.sf_es.getD k 0 := by
    rw [hDget _ hjlt, absQ_eq_abs] at hj0
    have := abs_eq_zero.mp hj0
    rw [htar] at this ⊢
    linarith
  have harg : argmin ((c.sf_es.take 100).map (fun v => absQ (v - c.sfertstress))) = k := by
    rcases lt_trichotomy
      (argmin ((c.sf_es.take 100).map (fun v => absQ (v - c.sfertstress)))) k with h | h | h
    · exact absurd hsfeq (ne_of_lt (hmono k hk _ h))
    · exact h
    · exact absurd hsfeq (ne_of_gt (hmono _ hjlt k h))
  refine ⟨harg, ?_, ?_, ?_⟩
  · intro i hi
    rw [← htar, absQ_eq_abs, absQ_eq_abs]
    simp only [sub_self, abs_zero]
    exact abs_nonneg _
  · simp only [soilFertCalibrator, if_neg hne]
    rw [harg]
  · simp only [soilFertCalibrator, if_neg hne]

/-- A concrete strictly increasing 100-row stress-response curve with the
target stress equal to row 3's stress fraction, and a distinctive
relative-biomass value (999) at row 3. -/
def cropCurveEx : Crop :=
  { sfertstress := 4/100
    sf_es := (List.range 100).map (fun i : ℕ => ((i : ℚ) + 1) / 100)
    Ksexpf_es := (List.range 100).map (fun i : ℕ => (i : ℚ))
    fcdecline_es := (List.range 100).map (fun i : ℕ => (i : ℚ) + 200)
    Kswp_es := (List.range 100).map (fun i : ℕ => (i : ℚ) + 400)
    Ksccx_es := (List.range 100).map (fun i : ℕ => (i : ℚ) + 600)
    relbio_es := (List.range 100).map (fun i : ℕ => if i = 3 then 999 else (i : ℚ))
    Ksccx := 0
    Ksexpf := 0
    Kswp := 0
    fcdecline := 0
    planting_month := 3
    planting_day := 1
    harvest_month := 8
    harvest_day := 1
    MaturityCD := 100 }

/-- The concrete curve reads `(i + 1) / 100` at every index below 100. -/
theorem cropCurveEx_sf (i : ℕ) (hi : i < 100) :
    cropCurveEx.sf_es.getD i 0 = ((i : ℚ) + 1) / 100 := by
  have hi' : i < cropCurveEx.sf_es.length := by
    simp [cropCurveEx]
    omega
  rw [List.getD_eq_getElem _ _ hi']
  simp [cropCurveEx]

/-- Witness for C7 at the concrete curve, selecting index 3. -/
theorem calibrator_selects_index_witness :
    argmin ((cropCurveEx.sf_es.take 100).map (fun v => absQ (v - cropCurveEx.sfertstress))) = 3 ∧
    (∀ i, i < 100 →
      absQ (cropCurveEx.sf_es.getD 3 0 - cropCurveEx.sfertstress) ≤
        absQ (cropCurveEx.sf_es.getD i 0 - cropCurveEx.sfertstress)) ∧
    soilFertCalibrator cropCurveEx =
      (none, { cropCurveEx with
        Ksccx := cropCurveEx.Ksccx_es.getD 3 0
        Ksexpf := cropCurveEx.Ksexpf_es.getD 3 0
        Kswp := cropCurveEx.Kswp_es.getD 3 0
        fcdecline := cropCurveEx.fcdecline_es.getD 3 0 }) ∧
    (soilFertCalibrator cropCurveEx).2.relbio_es = cropCurveEx.relbio_es :=
  calibrator_selects_index cropCurveEx 3
    (by norm_num [cropCurveEx])
    (by norm_num)
    (by simp [cropCurveEx])
    (by
      intro j hj i hij
      rw [cropCurveEx_sf i (lt_trans hij hj), cropCurveEx_sf j hj]
      have : (i : ℚ) < (j : ℚ) := by exact_mod_cast hij
      rw [div_lt_div_iff₀ (by norm_num) (by norm_num)]
      linarith)
    (by rw [cropCurveEx_sf 3 (by norm_num)]; norm_num [cropCurveEx])

/-- A curve like `cropCurveEx` but small, to keep the evaluation cheap:
target stress 3/4 selects index 1, where the relative biomass is 999. -/
def cropRelbioEx : Crop :=
  { sfertstress := 3/4
    sf_es := [1/2, 3/4]
    Ksexpf_es := [1, 2]
    fcdecline_es := [3, 4]
    Kswp_es := [5, 6]
    Ksccx_es := [7, 8]
    relbio_es := [50, 999]
    Ksccx := 0
    Ksexpf := 0
    Kswp := 0
    fcdecline := 0
    planting_month := 3
    planting_day := 1
    harvest_month := 8
    harvest_day := 1
    MaturityCD := 100 }

/-- Counterexample to C7 as stated: the calibrator never reads the relative
biomass at the selected index.  On `cropRelbioEx` the selected index is 1 and
`relbio_es[1] = 999`, yet the calibrator returns the `relbio_es` array
unchanged and none of the calibrated fields receives the value 999: no
output of the code reads the relative biomass at that index
(read_model_parameters.py has no `relbio_es[loc_]` access). -/
theorem calibrator_relbio_not_indexed :
    argmin ((cropRelbioEx.sf_es.take 100).map (fun v => absQ (v - cropRelbioEx.sfertstress))) = 1 ∧
    cropRelbioEx.relbio_es.getD 1 0 = 999 ∧
    (soilFertCalibrator cropRelbioEx).1 = none ∧
    (soilFertCalibrator cropRelbioEx).2.relbio_es = cropRelbioEx.relbio_es ∧
    (soilFertCalibrator cropRelbioEx).2.Ksccx = 8 ∧
    ¬ (soilFertCalibrator cropRelbioEx).2.Ksccx = 999 ∧
    ¬ (soilFertCalibrator cropRelbioEx).2.Ksexpf = 999 ∧
    ¬ (soilFertCalibrator cropRelbioEx).2.Kswp = 999 ∧
    ¬ (soilFertCalibrator cropRelbioEx).2.fcdecline = 999 := by
  have harg : argmin ((cropRelbioEx.sf_es.take 100).map
      (fun v => absQ (v - cropRelbioEx.sfertstress))) = 1 := by
    norm_num [cropRelbioEx, argmin, argminAux, absQ]
  refine ⟨harg, by norm_num [cropRelbioEx], ?_, ?_, ?_, ?_, ?_, ?_, ?_⟩ <;>
    rw [soilFertCalibrator, if_neg (by norm_num [cropRelbioEx])] <;>
    rw [harg] <;>
    norm_num [cropRelbioEx]

/-- C6: the field-management override of rainfall_partition.py, lines 79-84
and 151-156.  When surface runoff is inhibited, or bunds are present with
height at least 0.001, the function returns `Runoff = 0`,
`Infl = precipitation` and leaves the submerged-day counter unchanged; in
every other case it resets the counter to 0 before the curve-number
partition. -/
theorem rainfall_partition_override (expQ : ℚ → ℚ) (c0 p : ℚ) (th : List ℚ)
    (ds : ℤ) (srinhb bunds : Bool) (zbund pct cn : ℚ) (adj : ℤ) (zcn : ℚ)
    (ncomp : ℕ) (dz wp fc : List ℚ) (hp : 0 ≤ p) :
    (srinhb = true ∨ (bunds = true ∧ 1/1000 ≤ zbund) →
      rainfall_partition expQ c0 p th ds srinhb bunds zbund pct cn adj zcn
        ncomp dz wp fc = ⟨0, p, ds, dz⟩) ∧
    (srinhb = false → bunds = false ∨ zbund < 1/1000 →
      (rainfall_partition expQ c0 p th ds srinhb bunds zbund pct cn adj zcn
        ncomp dz wp fc).DaySubmerged = 0) := by
  constructor
  · intro hcond
    have hneg : ¬ (srinhb = false ∧ (bunds = false ∨ zbund < 1/1000)) := by
      rintro ⟨h1, h2⟩
      rcases hcond with h | ⟨hb, hz⟩
      · rw [h] at h1
        exact Bool.true_eq_false.mp h1
      · rcases h2 with h2 | h2
        · rw [hb] at h2
          exact Bool.true_eq_false.mp h2
        · linarith
    rw [rainfall_partition, if_neg hneg]
  · intro h1 h2
    rw [rainfall_partition, if_pos ⟨h1, h2⟩]

/-- Witness for C6: bunds of height 0.2 with precipitation 7 give no runoff,
full infiltration, and an unchanged submerged-day counter. -/
theorem rainfall_partition_override_witness :
    ((true : Bool) = true ∨ ((true : Bool) = true ∧ (1:ℚ)/1000 ≤ 2/10) →
      rainfall_partition (fun _ => 0) 0 7 [] 4 true true (2/10) 0 75 0 0 0
        [] [] [] = ⟨0, 7, 4, []⟩) ∧
    ((true : Bool) = false → (true : Bool) = false ∨ (2:ℚ)/10 < 1/1000 →
      (rainfall_partition (fun _ => 0) 0 7 [] 4 true true (2/10) 0 75 0 0 0
        [] [] []).DaySubmerged = 0) :=
  rainfall_partition_override (fun _ => 0) 0 7 [] 4 true true (2/10) 0 75 0 0
    0 [] [] [] (by norm_num)

/-- On a non-decreasing cumulative-depth list, every element of the
`comp_sto`-prefix is strictly below the reference depth `zCN` (the elements
`≥ zCN` form a suffix whose length is subtracted). -/
theorem sorted_take_lt (zCN : ℚ) (l : List ℚ) (hs : l.Pairwise (· ≤ ·)) :
    ∀ d ∈ l.take (l.length - (l.filter (fun x => decide (zCN ≤ x))).length),
      d < zCN := by
  induction l with
  | nil => simp
  | cons a t ih =>
      rw [List.pairwise_cons] at hs
      obtain ⟨ha, ht⟩ := hs
      by_cases haz : zCN ≤ a
      · have htall : t.filter (fun x => decide (zCN ≤ x)) = t := by
          rw [List.filter_eq_self]
          intro b hb
          simpa using le_trans haz (ha b hb)
        have hall : (a :: t).filter (fun x => decide (zCN ≤ x)) = a :: t := by
          rw [List.filter_cons_of_pos (by simpa using haz), htall]
        rw [hall]
        simp
      · have hfc : (a :: t).filter (fun x => decide (zCN ≤ x)) =
            t.filter (fun x => decide (zCN ≤ x)) :=
          List.filter_cons_of_neg (by simpa using haz)
        rw [hfc]
        have hk : (t.filter (fun x => decide (zCN ≤ x))).length ≤ t.length :=
          List.length_filter_le _ _
        have hlen : (a :: t).length - (t.filter (fun x => decide (zCN ≤ x))).length
            = (t.length - (t.filter (fun x => decide (zCN ≤ x))).length) + 1 := by
          simp only [List.length_cons]
          omega
        rw [hlen, List.take_succ_cons]
        intro d hd
        rcases List.mem_cons.mp hd with h | h
        · rw [h]
          exact lt_of_not_ge haz
        · exact ih ht d h

/-- When no scanned depth exceeds `zCN` the weighting loop leaves the
depth prefix unchanged (the clamp at lines 111-112 never fires). -/
theorem cnWeightLoop_fst (expQ : ℚ → ℚ) (zCN : ℚ) :
    ∀ l : List ℚ, (∀ d ∈ l, ¬ zCN < d) → ∀ xx,
      (cnWeightLoop expQ zCN l xx).1 = l := by
  intro l
  induction l with
  | nil => intro _ _; rfl
  | cons d t ih =>
      intro h xx
      have hd : clampZ zCN d = d := if_neg (h d (List.mem_cons_self d t))
      rw [cnWeightLoop]
      rw [hd, ih (fun x hx => h x (List.mem_cons_of_mem d hx)) (wxOf expQ zCN d)]

/-- With the compartment count equal to the list length, `comp_sto` is the
length minus the number of depths reaching the reference depth. -/
theorem compSto_eq (zCN : ℚ) (l : List ℚ) :
    compSto zCN l.length l =
      l.length - (l.filter (fun x => decide (zCN ≤ x))).length := by
  unfold compSto
  split
  · rename_i h
    omega
  · rfl

/-- C10: on a profile whose cumulative-depth array is sorted non-decreasing
(with the compartment count equal to the array length), every depth in the
scanned `comp_sto`-prefix is strictly below `Soil_zCN`, so the in-loop
assignment `prof.dzsum[ii] = Soil_zCN` never fires and `rainfall_partition`
returns the profile's depth array unchanged. -/
theorem rainfall_partition_no_profile_mutation (expQ : ℚ → ℚ) (c0 p : ℚ)
    (th : List ℚ) (ds : ℤ) (srinhb bunds : Bool) (zbund pct cn : ℚ)
    (adj : ℤ) (zcn : ℚ) (ncomp : ℕ) (dz wp fc : List ℚ)
    (hs : dz.Pairwise (· ≤ ·)) (hn : ncomp = dz.length) :
    (∀ d ∈ dz.take (compSto zcn ncomp dz), d < zcn) ∧
    (rainfall_partition expQ c0 p th ds srinhb bunds zbund pct cn adj zcn
      ncomp dz wp fc).dzsum = dz := by
  have htake : ∀ d ∈ dz.take (compSto zcn ncomp dz), d < zcn := by
    rw [hn, compSto_eq]
    exact sorted_take_lt zcn dz hs
  refine ⟨htake, ?_⟩
  rw [rainfall_partition]
  split
  · dsimp only
    rw [adjustedCNdz]
    split
    · rw [cnAdjustMoisture]
      dsimp only
      rw [hn, cnWeightLoop_fst expQ zcn _
        (fun d hd => lt_asymm (htake d (hn ▸ hd)))]
      exact List.take_append_drop _ dz
    · rfl
  · rfl

/-- Witness for C10: the sorted profile `[0.1, 0.2, 0.3]` with reference
depth 0.15 and moisture adjustment on is read but never written. -/
theorem rainfall_partition_no_profile_mutation_witness :
    (∀ d ∈ ([1/10, 2/10, 3/10] : List ℚ).take
      (compSto (15/100) 3 [1/10, 2/10, 3/10]), d < 15/100) ∧
    (rainfall_partition (fun q => q) 0 20 [1/4, 1/4, 1/4] 5 false false 0 0 75
      1 (15/100) 3 [1/10, 2/10, 3/10] [1/10, 1/10, 1/10]
      [3/10, 3/10, 3/10]).dzsum = [1/10, 2/10, 3/10] :=
  rainfall_partition_no_profile_mutation (fun q => q) 0 20 [1/4, 1/4, 1/4] 5
    false false 0 0 75 1 (15/100) 3 [1/10, 2/10, 3/10] [1/10, 1/10, 1/10]
    [3/10, 3/10, 3/10]
    (by norm_num [List.pairwise_cons])
    (by norm_num)

end AquaCrop
